import Mathlib

/-!
Shallow embedding of the answer-evaluation and tracking engine of the
Jobly-Ai-Backend repository (src/evaluator.py and src/livekit_utils.py).

Conventions of the embedding:
* Python numbers (int and float) are modelled as rationals.  The builtin
  round(x, 1) (banker's rounding to one decimal) is modelled by pyRound1,
  exact round-half-to-even on rationals; int(x) truncation toward zero by
  pyInt.
* Python dictionaries with a fixed key set are records; a key that may be
  absent is an Option field.
* str.lower is modelled as ASCII lowering (lowerStr), the substring test
  needle in haystack is containsChars, str.strip is pyStrip (both sides,
  Python whitespace set); answers and keywords are treated as ASCII text.
* The OpenAI call is an external input: a ModelBehavior value is either
  an exception (Except.error) or a returned text whose json.loads result
  is given directly, none standing for unparsable text (JSONDecodeError)
  and some j for a successfully decoded JSON object j.  Ill-typed decoded
  values that would raise another exception inside the try block are
  subsumed by the Except.error case, which takes the same except branch.
* datetime.now() is an external input threaded as a string argument.
-/

/-- Round-half-to-even on rationals, modelling the tie behaviour of
Python round applied to an exactly representable value. -/
def roundHalfEven (x : ℚ) : ℤ :=
  if x - (⌊x⌋ : ℚ) < 1/2 then ⌊x⌋
  else if 1/2 < x - (⌊x⌋ : ℚ) then ⌊x⌋ + 1
  else if ⌊x⌋ % 2 = 0 then ⌊x⌋ else ⌊x⌋ + 1

/-- Python round(x, 1): round to one decimal digit, ties to even. -/
def pyRound1 (x : ℚ) : ℚ :=
  (roundHalfEven (x * 10) : ℚ) / 10

/-- Python int(x): truncation toward zero. -/
def pyInt (x : ℚ) : ℤ :=
  if 0 ≤ x then ⌊x⌋ else ⌈x⌉

/-- ASCII lower-casing of one character. -/
def lowerChar (c : Char) : Char :=
  if 65 ≤ c.toNat ∧ c.toNat ≤ 90 then Char.ofNat (c.toNat + 32) else c

/-- ASCII model of Python str.lower. -/
def lowerStr (s : String) : String :=
  String.mk (s.data.map lowerChar)

/-- Python whitespace characters stripped by str.strip(). -/
def isSpaceChar (c : Char) : Bool :=
  c == ' ' || c == '\t' || c == '\n' || c == '\r' || c == '\x0b' || c == '\x0c'

/-- Model of Python str.strip(): drop whitespace from both ends. -/
def pyStrip (s : String) : String :=
  String.mk (((s.data.dropWhile isSpaceChar).reverse.dropWhile isSpaceChar).reverse)

/-- Does the character list start with the given pattern. -/
def startsWithChars : List Char → List Char → Bool
  | _, [] => true
  | [], _ :: _ => false
  | a :: as, b :: bs => a == b && startsWithChars as bs

/-- Does the character list contain the pattern as a contiguous sublist. -/
def containsChars : List Char → List Char → Bool
  | [], needle => needle.isEmpty
  | hay@(_ :: t), needle => startsWithChars hay needle || containsChars t needle

/-- Python needle in haystack on strings: substring containment. -/
def pyInStr (needle hay : String) : Bool :=
  containsChars hay.data needle.data

/-- The nested "evaluation" sub-dictionary of an evaluation result
(keys accuracy, completeness, relevance, confidence).  A model-produced
sub-dictionary may omit keys, hence the Option fields. -/
structure EvalScores where
  accuracy : Option ℚ
  completeness : Option ℚ
  relevance : Option ℚ
  confidence : Option String
deriving Repr, DecidableEq

/-- An evaluation result dictionary as built by AnswerEvaluator.
Field partialAns models the dict key "is_partial"; fields that the
merge step of _parse_evaluation_response does not default
(technical_depth, communication_quality, difficulty_level) are Option,
none standing for an absent key.  The key "fallback" is absent on the
model path, modelled as the value false. -/
structure Evaluation where
  is_correct : Bool
  partialAns : Bool
  score : ℚ
  evaluation : EvalScores
  feedback : String
  keywords_matched : List String
  keywords_missed : List String
  strengths : List String
  improvements : List String
  technical_depth : Option ℚ
  communication_quality : Option ℚ
  question : String
  answer : String
  timestamp : String
  difficulty_level : Option String
  fallback : Bool
deriving Repr, DecidableEq

/-- A decoded JSON object returned by the model, as json.loads yields it:
every key may be absent. Field partialAns models the key "is_partial". -/
structure ModelJson where
  is_correct : Option Bool
  partialAns : Option Bool
  score : Option ℚ
  evaluation : Option EvalScores
  feedback : Option String
  keywords_matched : Option (List String)
  keywords_missed : Option (List String)
  strengths : Option (List String)
  improvements : Option (List String)
  technical_depth : Option ℚ
  communication_quality : Option ℚ
deriving Repr, DecidableEq

/-- Behaviour of the OpenAI call inside evaluate_answer: an exception,
or a response text given by its json.loads outcome (none = JSONDecodeError). -/
def ModelBehavior : Type := Except String (Option ModelJson)

/-- The keywords of kws matched in answer: case-insensitive substring
containment, as in _get_fallback_evaluation. -/
def fallbackMatched (answer : String) (kws : List String) : List String :=
  kws.filter (fun kw => pyInStr (lowerStr kw) (lowerStr answer))

/-- The keywords of kws not matched in answer. -/
def fallbackMissed (answer : String) (kws : List String) : List String :=
  kws.filter (fun kw => ! pyInStr (lowerStr kw) (lowerStr answer))

/-- The score computed by _get_fallback_evaluation: the keyword match
ratio times ten, rounded to one decimal, when keywords are present;
otherwise 6.0 for a stripped answer longer than 20 characters, else 3.0. -/
def fallbackScore (answer : String) (kws : List String) : ℚ :=
  if kws.isEmpty then
    if 20 < (pyStrip answer).length then 6 else 3
  else
    pyRound1 ((fallbackMatched answer kws).length / (kws.length : ℚ) * 10)

/-- AnswerEvaluator._get_fallback_evaluation.  The expected_keywords
argument is Optional; the body replaces a falsy value (None or the empty
list) by []. -/
def getFallbackEvaluation (question answer : String)
    (expected_keywords : Option (List String)) (now : String) : Evaluation :=
  let kws := expected_keywords.getD []
  let matched_keywords := fallbackMatched answer kws
  let missed_keywords := fallbackMissed answer kws
  let score : ℚ := fallbackScore answer kws
  let is_correct : Bool := decide (7 ≤ score)
  let partialAns : Bool := decide (5 ≤ score ∧ score < 7)
  { is_correct := is_correct
    partialAns := partialAns
    score := score
    evaluation :=
      { accuracy := some ((pyInt (score * 10) : ℤ) : ℚ)
        completeness := some ((pyInt (score * 10) : ℤ) : ℚ)
        relevance := some ((pyInt (score * 10) : ℤ) : ℚ)
        confidence := some "low" }
    feedback := "Automated evaluation based on keyword matching. Manual review recommended."
    keywords_matched := matched_keywords
    keywords_missed := missed_keywords
    strengths := if answer.isEmpty then [] else ["Response provided"]
    improvements := if is_correct then [] else ["Could provide more detailed explanation"]
    technical_depth := some ((pyInt (score * 10) : ℤ) : ℚ)
    communication_quality := some 70
    question := question
    answer := answer
    timestamp := now
    difficulty_level := none
    fallback := true }

/-- The default sub-dictionary installed by _parse_evaluation_response
when the decoded object has no "evaluation" key. -/
def defaultEvalScores : EvalScores :=
  { accuracy := some 0, completeness := some 0, relevance := some 0,
    confidence := some "low" }

/-- AnswerEvaluator._parse_evaluation_response: on JSONDecodeError
(none) fall back with empty question, answer and keyword list; otherwise
merge defaults for the required keys and clamp score into [0, 10].
The metadata keys question, answer, timestamp, difficulty_level are not
set here on the success path (the caller sets them); the placeholder
values below are always overwritten by evaluate_answer. -/
def parseEvaluationResponse (r : Option ModelJson) (now : String) : Evaluation :=
  match r with
  | none => getFallbackEvaluation "" "" (some []) now
  | some j =>
    { is_correct := j.is_correct.getD false
      partialAns := j.partialAns.getD false
      score := max 0 (min 10 (j.score.getD 0))
      evaluation := j.evaluation.getD defaultEvalScores
      feedback := j.feedback.getD ""
      keywords_matched := j.keywords_matched.getD []
      keywords_missed := j.keywords_missed.getD []
      strengths := j.strengths.getD []
      improvements := j.improvements.getD []
      technical_depth := j.technical_depth
      communication_quality := j.communication_quality
      question := ""
      answer := ""
      timestamp := ""
      difficulty_level := none
      fallback := false }

/-- AnswerEvaluator.evaluate_answer.  The first component is the
returned evaluation, the second the evaluation_history after the call
(history is given as the first argument).  On the success branch the
parsed evaluation gets the metadata attached and is appended to the
history; on any exception the except branch returns the fallback
evaluation without touching the history. -/
def evaluate_answer (history : List Evaluation) (question answer : String)
    (expected_keywords : Option (List String)) (difficulty_level : String)
    (behavior : ModelBehavior) (now : String) : Evaluation × List Evaluation :=
  match behavior with
  | Except.error _ =>
    (getFallbackEvaluation question answer expected_keywords now, history)
  | Except.ok r =>
    let ev0 := parseEvaluationResponse r now
    let ev := { ev0 with
      question := question
      answer := answer
      timestamp := now
      difficulty_level := some difficulty_level }
    (ev, history ++ [ev])

/-- The metrics bundle of a performance summary, each value rounded to
one decimal. -/
structure PerfMetrics where
  accuracy : ℚ
  technical_score : ℚ
  communication_score : ℚ
  response_rate : ℚ
  confidence_level : ℚ
deriving Repr, DecidableEq

/-- The dictionary returned by calculate_overall_performance.  On the
empty-history branch the keys strengths, weaknesses, recommendation and
metrics are absent, hence the Option fields; wrong_answers is an
integer difference and may in principle be negative. -/
structure Performance where
  total_score : ℚ
  correct_answers : Nat
  wrong_answers : ℤ
  partial_answers : Nat
  average_score : ℚ
  total_questions : Nat
  strengths : Option (List String)
  weaknesses : Option (List String)
  recommendation : Option String
  metrics : Option PerfMetrics
deriving Repr, DecidableEq

/-- The recommendation sentence chosen from average_score (the 0-100
scale value) by the if/elif chain of calculate_overall_performance. -/
def recommendationFor (average_score : ℚ) : String :=
  if 80 ≤ average_score then
    "Strongly recommend for next round. Candidate demonstrates excellent understanding and communication."
  else if 65 ≤ average_score then
    "Recommend for next round. Candidate shows good potential with some areas for growth."
  else if 50 ≤ average_score then
    "Consider for next round with reservations. Additional assessment may be needed."
  else
    "Does not meet current requirements. May need more preparation."

/-- Mean communication_quality over a history (absent key counts 0),
as computed by calculate_overall_performance. -/
def avgCommunication (history : List Evaluation) : ℚ :=
  (history.map (fun e => e.communication_quality.getD 0)).sum / (history.length : ℚ)

/-- Mean technical_depth over a history (absent key counts 0). -/
def avgTechnical (history : List Evaluation) : ℚ :=
  (history.map (fun e => e.technical_depth.getD 0)).sum / (history.length : ℚ)

/-- Mean accuracy sub-score over a history (absent key counts 0). -/
def avgAccuracy (history : List Evaluation) : ℚ :=
  (history.map (fun e => (e.evaluation.accuracy).getD 0)).sum / (history.length : ℚ)

/-- AnswerEvaluator.calculate_overall_performance, as a function of the
evaluation history. -/
def calculate_overall_performance (history : List Evaluation) : Performance :=
  if history.isEmpty then
    { total_score := 0, correct_answers := 0, wrong_answers := 0,
      partial_answers := 0, average_score := 0, total_questions := 0,
      strengths := none, weaknesses := none, recommendation := none,
      metrics := none }
  else
    let total_questions := history.length
    let correct_answers := (history.filter (fun e => e.is_correct)).length
    let partial_answers := (history.filter (fun e => e.partialAns)).length
    let wrong_answers : ℤ :=
      (total_questions : ℤ) - (correct_answers : ℤ) - (partial_answers : ℤ)
    let total_score_sum := (history.map (fun e => e.score)).sum
    let average_score := pyRound1 (total_score_sum / (total_questions : ℚ) * 10)
    let avg_accuracy := avgAccuracy history
    let avg_technical := avgTechnical history
    let avg_communication := avgCommunication history
    let strengths :=
      (if 75 ≤ avg_communication then ["Strong communication skills"] else []) ++
      (if 75 ≤ avg_technical then ["Good technical knowledge"] else []) ++
      (if 80 ≤ avg_accuracy then ["High accuracy in responses"] else [])
    let weaknesses :=
      (if avg_communication < 60 then ["Could improve communication clarity"] else []) ++
      (if avg_technical < 60 then ["Needs to deepen technical understanding"] else []) ++
      (if avg_accuracy < 60 then ["Could improve answer accuracy"] else [])
    let response_rate :=
      ((correct_answers : ℚ) + (partial_answers : ℚ)) / (total_questions : ℚ) * 100
    { total_score := average_score
      correct_answers := correct_answers
      wrong_answers := wrong_answers
      partial_answers := partial_answers
      average_score := average_score
      total_questions := total_questions
      strengths := some strengths
      weaknesses := some weaknesses
      recommendation := some (recommendationFor average_score)
      metrics := some
        { accuracy := pyRound1 avg_accuracy
          technical_score := pyRound1 avg_technical
          communication_score := pyRound1 avg_communication
          response_rate := pyRound1 response_rate
          confidence_level := pyRound1 ((avg_accuracy + avg_technical) / 2) } }

/-- The per-answer evaluation summary embedded in an answer transcript
entry by InterviewTracker.add_answer.  Field partialAns models the dict
key "is_partial". -/
structure EvalSummary where
  score : ℚ
  is_correct : Bool
  partialAns : Bool
deriving Repr, DecidableEq

/-- The "type" key of a transcript entry. -/
inductive EntryKind where
  | question : EntryKind
  | answer : EntryKind
deriving Repr, DecidableEq

/-- One transcript entry of InterviewTracker.  Question entries carry
the key "number", answer entries the key "question_number"; absent keys
are none. -/
structure TranscriptEntry where
  kind : EntryKind
  content : String
  number : Option Nat
  question_number : Option Nat
  timestamp : String
  evaluation : Option EvalSummary
deriving Repr, DecidableEq

/-- State of an InterviewTracker.  The transcript list object is held in
a heap of list cells (heap), with transcriptRef the address of
self.transcript; get_transcript returns that address (Python returns the
list object itself, an alias, not a copy), and the in-place appends of
add_question and add_answer write through it. -/
structure TrackerState where
  questions_asked : Nat
  answers_received : Nat
  start_time : String
  heap : Nat → List TranscriptEntry
  transcriptRef : Nat
  current_question : Option String

/-- InterviewTracker.__init__: fresh state, transcript allocated at
address 0 holding the empty list. -/
def initTracker (now : String) : TrackerState :=
  { questions_asked := 0, answers_received := 0, start_time := now,
    heap := fun _ => [], transcriptRef := 0, current_question := none }

/-- Write one heap cell. -/
def heapWrite (heap : Nat → List TranscriptEntry) (r : Nat)
    (l : List TranscriptEntry) : Nat → List TranscriptEntry :=
  fun r2 => if r2 = r then l else heap r2

/-- Read the list stored at an address in the tracker's heap. -/
def readRef (st : TrackerState) (r : Nat) : List TranscriptEntry :=
  st.heap r

/-- InterviewTracker.add_question: bump the counter, record the current
question and append a question entry in place to the transcript list;
returns the new question number together with the new state. -/
def add_question (st : TrackerState) (question : String) (now : String) :
    Nat × TrackerState :=
  let n := st.questions_asked + 1
  let entry : TranscriptEntry :=
    { kind := EntryKind.question, content := question, number := some n,
      question_number := none, timestamp := now, evaluation := none }
  (n, { st with
    questions_asked := n
    current_question := some question
    heap := heapWrite st.heap st.transcriptRef
      (st.heap st.transcriptRef ++ [entry]) })

/-- InterviewTracker.add_answer: bump the counter and append an answer
entry in place, embedding a three-field summary when an evaluation is
given (a None evaluation is falsy and skipped). -/
def add_answer (st : TrackerState) (answer : String)
    (evaluation : Option Evaluation) (now : String) : TrackerState :=
  let entry : TranscriptEntry :=
    { kind := EntryKind.answer, content := answer, number := none,
      question_number := some st.questions_asked, timestamp := now,
      evaluation :=
        match evaluation with
        | none => none
        | some ev => some { score := ev.score, is_correct := ev.is_correct,
                            partialAns := ev.partialAns } }
  { st with
    answers_received := st.answers_received + 1
    heap := heapWrite st.heap st.transcriptRef
      (st.heap st.transcriptRef ++ [entry]) }

/-- InterviewTracker.get_transcript: returns self.transcript, that is,
the address of the live transcript list, not a copy of its contents. -/
def get_transcript (st : TrackerState) : Nat :=
  st.transcriptRef

/-- A decoded model output claiming a perfect classification with a zero
score: is_correct and is_partial both true, score 0.  Used to exercise
_parse_evaluation_response on arbitrary model output. -/
def badModelJson : ModelJson :=
  { is_correct := some true, partialAns := some true, score := some 0,
    evaluation := none, feedback := none, keywords_matched := none,
    keywords_missed := none, strengths := none, improvements := none,
    technical_depth := none, communication_quality := none }

/-- The fallback score as the spec words it, amended with the rounding
the code applies: with keywords present, 10 times the matched-over-total
ratio rounded to one decimal; otherwise 6.0 when the trimmed answer is
longer than 20 characters, else 3.0. -/
def specFallbackScore (answer : String) (kws : List String) : ℚ :=
  if kws = [] then
    if 20 < (pyStrip answer).length then 6 else 3
  else
    pyRound1 (10 * (((fallbackMatched answer kws).length : ℚ) / (kws.length : ℚ)))

/-- One call's worth of inputs to the fallback scorer: question, answer,
expected keywords, current time. -/
def FallbackInput : Type :=
  String × String × Option (List String) × String

/-- The fallback evaluation produced from one input tuple. -/
def fallbackOf (p : FallbackInput) : Evaluation :=
  getFallbackEvaluation p.1 p.2.1 p.2.2.1 p.2.2.2

/-! ## General lemmas about the rounding helpers -/

theorem floor_le_roundHalfEven (x : ℚ) : ⌊x⌋ ≤ roundHalfEven x := by
  unfold roundHalfEven
  split_ifs <;> omega

theorem roundHalfEven_le_ceil (x : ℚ) : roundHalfEven x ≤ ⌈x⌉ := by
  unfold roundHalfEven
  split_ifs with h1 h2 h3
  · exact Int.floor_le_ceil x
  · rw [Int.add_one_le_ceil_iff]
    have := Int.floor_le x
    nlinarith [Int.floor_le x]
  · exact Int.floor_le_ceil x
  · rw [Int.add_one_le_ceil_iff]
    push_neg at h1
    nlinarith [Int.floor_le x]

theorem pyRound1_nonneg (x : ℚ) (hx : 0 ≤ x) : 0 ≤ pyRound1 x := by
  unfold pyRound1
  have h1 : (0 : ℤ) ≤ ⌊x * 10⌋ := Int.floor_nonneg.mpr (by nlinarith)
  have h2 := floor_le_roundHalfEven (x * 10)
  have : (0 : ℚ) ≤ (roundHalfEven (x * 10) : ℚ) := by exact_mod_cast le_trans h1 h2
  positivity

theorem pyRound1_le_ten (x : ℚ) (hx : x ≤ 10) : pyRound1 x ≤ 10 := by
  unfold pyRound1
  have h1 : ⌈x * 10⌉ ≤ (100 : ℤ) := Int.ceil_le.mpr (by push_cast; nlinarith)
  have h2 := roundHalfEven_le_ceil (x * 10)
  have h3 : (roundHalfEven (x * 10) : ℚ) ≤ 100 := by exact_mod_cast le_trans h2 h1
  linarith

/-! ## Bounds on the fallback score -/

theorem fallbackScore_nonneg (answer : String) (kws : List String) :
    0 ≤ fallbackScore answer kws := by
  unfold fallbackScore
  split_ifs with h1 h2
  · norm_num
  · norm_num
  · apply pyRound1_nonneg
    positivity

theorem fallbackScore_le_ten (answer : String) (kws : List String) :
    fallbackScore answer kws ≤ 10 := by
  unfold fallbackScore
  split_ifs with h1 h2
  · norm_num
  · norm_num
  · apply pyRound1_le_ten
    have hlen : 0 < kws.length := by
      cases kws with
      | nil => simp at h1
      | cons a l => simp
    have hle : (fallbackMatched answer kws).length ≤ kws.length :=
      List.length_filter_le _ _
    have hq : ((fallbackMatched answer kws).length : ℚ) / (kws.length : ℚ) ≤ 1 := by
      rw [div_le_one (by exact_mod_cast hlen)]
      exact_mod_cast hle
    nlinarith [hq]

/-- The score of every evaluation built by the fallback helper. -/
theorem getFallbackEvaluation_score (question answer : String)
    (expected_keywords : Option (List String)) (now : String) :
    (getFallbackEvaluation question answer expected_keywords now).score =
      fallbackScore answer (expected_keywords.getD []) := rfl

/-! ## Projection lemmas for the fallback evaluation -/

theorem getFallbackEvaluation_matched (question answer : String)
    (kws : Option (List String)) (now : String) :
    (getFallbackEvaluation question answer kws now).keywords_matched =
      fallbackMatched answer (kws.getD []) := rfl

theorem getFallbackEvaluation_missed (question answer : String)
    (kws : Option (List String)) (now : String) :
    (getFallbackEvaluation question answer kws now).keywords_missed =
      fallbackMissed answer (kws.getD []) := rfl

theorem getFallbackEvaluation_is_correct (question answer : String)
    (kws : Option (List String)) (now : String) :
    (getFallbackEvaluation question answer kws now).is_correct =
      decide (7 ≤ fallbackScore answer (kws.getD [])) := rfl

theorem getFallbackEvaluation_partialAns (question answer : String)
    (kws : Option (List String)) (now : String) :
    (getFallbackEvaluation question answer kws now).partialAns =
      decide (5 ≤ fallbackScore answer (kws.getD []) ∧
        fallbackScore answer (kws.getD []) < 7) := rfl

/-! ## C1 and C2 -/

/-- C1: for every input and every behaviour of the language-model call
(exception, or arbitrary decoded output), evaluate_answer returns an
evaluation rather than propagating an error: on a model-call exception
the result is exactly the fallback evaluation of the call's own inputs,
and on unparsable output it is the fallback evaluation of the empty
answer and keyword list with the call metadata attached; both carry the
fallback marker. -/
theorem evaluate_answer_never_fails (history : List Evaluation)
    (question answer : String) (expected_keywords : Option (List String))
    (difficulty_level : String) (now : String) :
    (∀ b : ModelBehavior, ∃ ev h2,
      evaluate_answer history question answer expected_keywords
        difficulty_level b now = (ev, h2)) ∧
    (∀ e : String,
      (evaluate_answer history question answer expected_keywords
        difficulty_level (Except.error e) now).1 =
      getFallbackEvaluation question answer expected_keywords now ∧
      (evaluate_answer history question answer expected_keywords
        difficulty_level (Except.error e) now).1.fallback = true) ∧
    ((evaluate_answer history question answer expected_keywords
        difficulty_level (Except.ok none) now).1 =
      { getFallbackEvaluation "" "" (some []) now with
          question := question, answer := answer, timestamp := now,
          difficulty_level := some difficulty_level } ∧
      (evaluate_answer history question answer expected_keywords
        difficulty_level (Except.ok none) now).1.fallback = true) := by
  refine ⟨fun b => ⟨_, _, rfl⟩, fun e => ⟨rfl, rfl⟩, rfl, rfl⟩

/-- C2: every evaluation returned by evaluate_answer, on the model path
with any numeric score in the decoded output as well as on the fallback
path, has its score in [0, 10]. -/
theorem evaluate_answer_score_in_range (history : List Evaluation)
    (question answer : String) (expected_keywords : Option (List String))
    (difficulty_level : String) (b : ModelBehavior) (now : String) :
    0 ≤ (evaluate_answer history question answer expected_keywords
          difficulty_level b now).1.score ∧
    (evaluate_answer history question answer expected_keywords
          difficulty_level b now).1.score ≤ 10 := by
  match b with
  | Except.error e =>
    exact ⟨fallbackScore_nonneg answer _, fallbackScore_le_ten answer _⟩
  | Except.ok none =>
    exact ⟨fallbackScore_nonneg "" _, fallbackScore_le_ten "" _⟩
  | Except.ok (some j) =>
    constructor
    · exact le_max_left 0 _
    · simp only [evaluate_answer, parseEvaluationResponse]
      exact max_le (by norm_num) (min_le_left _ _)

/-! ## C3: threshold flags -/

/-- C3 counterexample: _parse_evaluation_response keeps the model's own
is_correct and is_partial flags unvalidated, so a decoded output with
both flags true and score 0 yields a returned evaluation with both
flags true and a score below 7. -/
theorem evaluate_answer_flags_unvalidated :
    (evaluate_answer [] "q" "a" none "medium"
      (Except.ok (some badModelJson)) "t").1.is_correct = true ∧
    (evaluate_answer [] "q" "a" none "medium"
      (Except.ok (some badModelJson)) "t").1.partialAns = true ∧
    (evaluate_answer [] "q" "a" none "medium"
      (Except.ok (some badModelJson)) "t").1.score < 7 := by
  refine ⟨rfl, rfl, ?_⟩
  show max 0 (min 10 ((some (0 : ℚ)).getD 0)) < 7
  norm_num

/-- C3 as amended: on every fallback-path evaluation, is_correct holds
iff score is at least 7, is_partial holds iff score is in [5, 7), and
the two flags are never both true; model-path evaluations instead carry
the flags exactly as decoded from the model output. -/
theorem fallback_flags_match_thresholds (question answer : String)
    (kws : Option (List String)) (now : String) :
    ((getFallbackEvaluation question answer kws now).is_correct = true ↔
      7 ≤ (getFallbackEvaluation question answer kws now).score) ∧
    ((getFallbackEvaluation question answer kws now).partialAns = true ↔
      5 ≤ (getFallbackEvaluation question answer kws now).score ∧
        (getFallbackEvaluation question answer kws now).score < 7) ∧
    ¬((getFallbackEvaluation question answer kws now).is_correct = true ∧
      (getFallbackEvaluation question answer kws now).partialAns = true) := by
  rw [getFallbackEvaluation_is_correct, getFallbackEvaluation_partialAns,
    getFallbackEvaluation_score]
  refine ⟨by simp, by simp, ?_⟩
  rintro ⟨h1, h2⟩
  simp only [decide_eq_true_eq] at h1 h2
  linarith [h2.2]

/-! ## C4: the fallback scoring formula -/

/-- C4 counterexample: with three keywords of which exactly one is
matched, the fallback score is 3.3, the rounded value, not the exact
ratio value 10/3 the claim states. -/
theorem fallbackScore_rounds_counterexample :
    fallbackMatched "We rely on ACID." ["ACID", "scalability", "sharding"] =
      ["ACID"] ∧
    fallbackScore "We rely on ACID." ["ACID", "scalability", "sharding"] =
      33/10 ∧
    (33/10 : ℚ) ≠ 10 * ((1 : ℚ) / 3) := by
  have h : fallbackMatched "We rely on ACID." ["ACID", "scalability", "sharding"] =
      ["ACID"] := by decide
  refine ⟨h, ?_, by norm_num⟩
  simp only [fallbackScore, h]
  norm_num [pyRound1, roundHalfEven]

/-- C4 as amended: the fallback score equals 10 times the ratio of
matched keywords (case-insensitive substring containment) over total
keywords, rounded to one decimal place, when keywords are present, and
6.0 or 3.0 by the 20-character trimmed-length test otherwise; on the
two-keyword ACID example with one keyword matched the evaluation has
matched ["ACID"], missed ["scalability"], score 5.0, is_partial true
and is_correct false. -/
theorem fallbackScore_matches_spec_formula :
    (∀ answer kws, fallbackScore answer kws = specFallbackScore answer kws) ∧
    (getFallbackEvaluation "q" "Transactions follow ACID."
      (some ["ACID", "scalability"]) "t").keywords_matched = ["ACID"] ∧
    (getFallbackEvaluation "q" "Transactions follow ACID."
      (some ["ACID", "scalability"]) "t").keywords_missed = ["scalability"] ∧
    (getFallbackEvaluation "q" "Transactions follow ACID."
      (some ["ACID", "scalability"]) "t").score = 5 ∧
    (getFallbackEvaluation "q" "Transactions follow ACID."
      (some ["ACID", "scalability"]) "t").partialAns = true ∧
    (getFallbackEvaluation "q" "Transactions follow ACID."
      (some ["ACID", "scalability"]) "t").is_correct = false := by
  have hm : fallbackMatched "Transactions follow ACID." ["ACID", "scalability"] =
      ["ACID"] := by decide
  have hs : fallbackScore "Transactions follow ACID." ["ACID", "scalability"] = 5 := by
    simp only [fallbackScore, hm]
    norm_num [pyRound1, roundHalfEven]
  refine ⟨?_, ?_, ?_, ?_, ?_, ?_⟩
  · intro answer kws
    unfold fallbackScore specFallbackScore
    rcases kws with _ | ⟨k, rest⟩
    · simp
    · simp only [List.isEmpty_cons, List.cons_ne_nil, if_neg, Bool.false_eq_true,
        not_false_eq_true, reduceCtorEq]
      ring_nf
  · rw [getFallbackEvaluation_matched]
    exact hm
  · rw [getFallbackEvaluation_missed]
    decide
  · rw [getFallbackEvaluation_score]
    exact hs
  · rw [getFallbackEvaluation_partialAns]
    simp only [Option.getD_some, hs]
    norm_num
  · rw [getFallbackEvaluation_is_correct]
    simp only [Option.getD_some, hs]
    norm_num

/-! ## C5: history growth -/

/-- C5 counterexample: when the model call raises, evaluate_answer
returns the fallback evaluation without appending it, so the history
stays empty instead of growing by one. -/
theorem error_path_skips_history :
    (evaluate_answer [] "q" "a" none "medium"
      (Except.error "boom") "t").2 = [] ∧
    (evaluate_answer [] "q" "a" none "medium"
      (Except.error "boom") "t").1.fallback = true := ⟨rfl, rfl⟩

/-- C5 as amended: on the success path and on the unparsable-output
fallback path the returned evaluation is appended as the new last
element and the history grows by exactly one, but on a model-call
exception the fallback evaluation is returned without being appended
and the history is unchanged. -/
theorem evaluate_answer_history_growth (history : List Evaluation)
    (question answer : String) (expected_keywords : Option (List String))
    (difficulty_level : String) (now : String) :
    (∀ r : Option ModelJson,
      (evaluate_answer history question answer expected_keywords
        difficulty_level (Except.ok r) now).2 =
      history ++ [(evaluate_answer history question answer expected_keywords
        difficulty_level (Except.ok r) now).1]) ∧
    (∀ e : String,
      (evaluate_answer history question answer expected_keywords
        difficulty_level (Except.error e) now).2 = history) :=
  ⟨fun _ => rfl, fun _ => rfl⟩

/-! ## C6: recommendation tiers -/

/-- C6: the aggregator's recommendation is selected from average_score
by the tier thresholds 80, 65 and 50, with the boundary values 80, 79.9,
65.0, 64.9, 50.0 and 49.9 landing in the tiers the spec names. -/
theorem recommendation_tiers :
    (∀ (e : Evaluation) (rest : List Evaluation),
      (calculate_overall_performance (e :: rest)).recommendation =
        some (recommendationFor
          (calculate_overall_performance (e :: rest)).average_score)) ∧
    (∀ avg : ℚ,
      (recommendationFor avg =
        "Strongly recommend for next round. Candidate demonstrates excellent understanding and communication."
        ↔ 80 ≤ avg) ∧
      (recommendationFor avg =
        "Recommend for next round. Candidate shows good potential with some areas for growth."
        ↔ (65 ≤ avg ∧ avg < 80)) ∧
      (recommendationFor avg =
        "Consider for next round with reservations. Additional assessment may be needed."
        ↔ (50 ≤ avg ∧ avg < 65)) ∧
      (recommendationFor avg =
        "Does not meet current requirements. May need more preparation."
        ↔ avg < 50)) ∧
    recommendationFor 80 =
      "Strongly recommend for next round. Candidate demonstrates excellent understanding and communication." ∧
    recommendationFor (799/10) =
      "Recommend for next round. Candidate shows good potential with some areas for growth." ∧
    recommendationFor 65 =
      "Recommend for next round. Candidate shows good potential with some areas for growth." ∧
    recommendationFor (649/10) =
      "Consider for next round with reservations. Additional assessment may be needed." ∧
    recommendationFor 50 =
      "Consider for next round with reservations. Additional assessment may be needed." ∧
    recommendationFor (499/10) =
      "Does not meet current requirements. May need more preparation." := by
  refine ⟨fun e rest => rfl, ?_, ?_, ?_, ?_, ?_, ?_, ?_⟩
  · intro avg
    unfold recommendationFor
    split_ifs with h1 h2 h3 <;> refine ⟨?_, ?_, ?_, ?_⟩ <;> simp_all <;>
      intros <;> linarith
  · norm_num [recommendationFor]
  · norm_num [recommendationFor]
  · norm_num [recommendationFor]
  · norm_num [recommendationFor]
  · norm_num [recommendationFor]
  · norm_num [recommendationFor]

/-! ## C7: the aggregate average -/

/-- C7: for a non-empty history the aggregator's average_score is the
mean per-answer score rescaled by ten and rounded to one decimal, and
total_score carries the same value; on the empty history both score
fields and all four counters are zero. -/
theorem aggregate_average_score :
    ((calculate_overall_performance []).total_score = 0 ∧
     (calculate_overall_performance []).average_score = 0 ∧
     (calculate_overall_performance []).total_questions = 0 ∧
     (calculate_overall_performance []).correct_answers = 0 ∧
     (calculate_overall_performance []).wrong_answers = 0 ∧
     (calculate_overall_performance []).partial_answers = 0) ∧
    (∀ (e : Evaluation) (rest : List Evaluation),
      (calculate_overall_performance (e :: rest)).average_score =
        pyRound1 (((e :: rest).map (fun ev => ev.score)).sum /
          (((e :: rest).length : ℚ)) * 10) ∧
      (calculate_overall_performance (e :: rest)).total_score =
        (calculate_overall_performance (e :: rest)).average_score) :=
  ⟨⟨rfl, rfl, rfl, rfl, rfl, rfl⟩, fun _ _ => ⟨rfl, rfl⟩⟩

/-! ## C8: fallback determinism -/

/-- C8: the fallback score is a pure function of the answer and the
expected keywords; the question and the clock value do not influence
it, so two calls with the same answer and keywords score alike. -/
theorem fallback_score_deterministic (q1 q2 now1 now2 answer : String)
    (kws : Option (List String)) :
    (getFallbackEvaluation q1 answer kws now1).score =
      fallbackScore answer (kws.getD []) ∧
    (getFallbackEvaluation q1 answer kws now1).score =
      (getFallbackEvaluation q2 answer kws now2).score :=
  ⟨rfl, rfl⟩

/-! ## C9: the transcript is returned live, not as a snapshot -/

/-- C9 counterexample: reading through the reference get_transcript
returned before an add_question no longer gives the old contents — the
append is visible through it, so the returned sequence is not a
snapshot. -/
theorem get_transcript_not_snapshot :
    readRef (add_question (initTracker "t0") "Q1" "t1").2
        (get_transcript (initTracker "t0")) ≠
      readRef (initTracker "t0") (get_transcript (initTracker "t0")) := by
  simp [readRef, add_question, initTracker, heapWrite, get_transcript]

/-- C9 as amended: get_transcript returns the address of the live
internal transcript list, not a copy: a later add_question or
add_answer appends in place, and reading through the previously
returned reference yields the old contents extended with exactly the
new entry. -/
theorem get_transcript_live_alias (st : TrackerState) (q a now : String)
    (ev : Option Evaluation) :
    readRef (add_question st q now).2 (get_transcript st) =
      readRef st (get_transcript st) ++
        [{ kind := EntryKind.question, content := q,
           number := some (st.questions_asked + 1), question_number := none,
           timestamp := now, evaluation := none }] ∧
    readRef (add_answer st a ev now) (get_transcript st) =
      readRef st (get_transcript st) ++
        [{ kind := EntryKind.answer, content := a, number := none,
           question_number := some st.questions_asked, timestamp := now,
           evaluation :=
             match ev with
             | none => none
             | some e2 => some { score := e2.score,
                                 is_correct := e2.is_correct,
                                 partialAns := e2.partialAns } }] := by
  constructor <;>
    simp [readRef, add_question, add_answer, heapWrite, get_transcript]

/-! ## C10: fallback sub-scores and the communication average -/

theorem fallbackOf_comm_quality (p : FallbackInput) :
    (fallbackOf p).communication_quality = some 70 := rfl

theorem map_comm_quality_fallback (l : List FallbackInput) :
    (l.map fallbackOf).map (fun e => e.communication_quality.getD 0) =
      List.replicate l.length (70 : ℚ) := by
  induction l with
  | nil => rfl
  | cons p t ih =>
    simp only [List.map_cons, List.length_cons, List.replicate_succ,
      fallbackOf_comm_quality, Option.getD_some]
    rw [ih]

theorem avgCommunication_fallback (p : FallbackInput)
    (rest : List FallbackInput) :
    avgCommunication ((p :: rest).map fallbackOf) = 70 := by
  unfold avgCommunication
  rw [map_comm_quality_fallback, List.sum_replicate]
  simp only [List.length_map, List.length_cons, nsmul_eq_mul]
  have h : ((rest.length : ℚ) + 1) ≠ 0 := by positivity
  push_cast
  rw [mul_comm, mul_div_assoc, div_self h, mul_one]

theorem calc_strengths_cons (e : Evaluation) (rest : List Evaluation) :
    (calculate_overall_performance (e :: rest)).strengths =
      some ((if 75 ≤ avgCommunication (e :: rest) then
              ["Strong communication skills"] else []) ++
        (if 75 ≤ avgTechnical (e :: rest) then
              ["Good technical knowledge"] else []) ++
        (if 80 ≤ avgAccuracy (e :: rest) then
              ["High accuracy in responses"] else [])) := rfl

theorem calc_weaknesses_cons (e : Evaluation) (rest : List Evaluation) :
    (calculate_overall_performance (e :: rest)).weaknesses =
      some ((if avgCommunication (e :: rest) < 60 then
              ["Could improve communication clarity"] else []) ++
        (if avgTechnical (e :: rest) < 60 then
              ["Needs to deepen technical understanding"] else []) ++
        (if avgAccuracy (e :: rest) < 60 then
              ["Could improve answer accuracy"] else [])) := rfl

/-- C10: every fallback evaluation has accuracy, completeness,
relevance and technical_depth equal to int(score * 10) and the constant
communication_quality 70, so a non-empty history made only of fallback
evaluations averages communication exactly 70 and the aggregator adds
neither the communication strength nor the communication weakness. -/
theorem fallback_subscore_structure :
    (∀ (question answer : String) (kws : Option (List String)) (now : String),
      (getFallbackEvaluation question answer kws now).evaluation.accuracy =
        some ((pyInt ((getFallbackEvaluation question answer kws now).score * 10) : ℤ) : ℚ) ∧
      (getFallbackEvaluation question answer kws now).evaluation.completeness =
        some ((pyInt ((getFallbackEvaluation question answer kws now).score * 10) : ℤ) : ℚ) ∧
      (getFallbackEvaluation question answer kws now).evaluation.relevance =
        some ((pyInt ((getFallbackEvaluation question answer kws now).score * 10) : ℤ) : ℚ) ∧
      (getFallbackEvaluation question answer kws now).technical_depth =
        some ((pyInt ((getFallbackEvaluation question answer kws now).score * 10) : ℤ) : ℚ) ∧
      (getFallbackEvaluation question answer kws now).communication_quality =
        some 70) ∧
    (∀ (p : FallbackInput) (rest : List FallbackInput),
      avgCommunication ((p :: rest).map fallbackOf) = 70 ∧
      "Strong communication skills" ∉
        ((calculate_overall_performance ((p :: rest).map fallbackOf)).strengths.getD []) ∧
      "Could improve communication clarity" ∉
        ((calculate_overall_performance ((p :: rest).map fallbackOf)).weaknesses.getD [])) := by
  refine ⟨fun question answer kws now => ⟨rfl, rfl, rfl, rfl, rfl⟩, ?_⟩
  intro p rest
  have havg := avgCommunication_fallback p rest
  rw [List.map_cons] at havg
  refine ⟨by rw [List.map_cons]; exact havg, ?_, ?_⟩
  · simp only [List.map_cons, calc_strengths_cons, Option.getD_some, havg]
    rw [if_neg (by norm_num : ¬ (75 : ℚ) ≤ 70)]
    simp only [List.nil_append]
    split_ifs <;> decide
  · simp only [List.map_cons, calc_weaknesses_cons, Option.getD_some, havg]
    rw [if_neg (by norm_num : ¬ (70 : ℚ) < 60)]
    simp only [List.nil_append]
    split_ifs <;> decide
